import Mathlib

/-!
# Verification of the mooring data generator

A shallow embedding of the mooring-data-generator repository
(`mooring_data_generator/builder.py`, `mooring_data_generator/models.py`,
`parsejson.py`) in Lean 4, together with theorems settling the claims of
the natural-language specification.

Modelling conventions:
* Python floats are modelled as rationals (`ℚ`); the random sources
  (`random.gauss`, `random.choice`, `random.choices`, `random.randint`)
  are modelled as explicit oracle inputs (sample values / index streams),
  so every theorem quantifies over all possible random outcomes.
* Python `None` becomes `Option.none`; fallible operations (exhausted
  pools, pydantic validation failures) return `Except`.
* `random.choice(seq)` picks `seq[i]` for an index `i < len(seq)` supplied
  by the oracle; we normalise an arbitrary oracle value with `% len`.
-/

/-! ## Line assignment (`builder.line_name_generator`) -/

/-- One iteration of the loop body of `line_name_generator`:
`bollard_position = bollard_number / len(bollard_list)`, then the
if/elif chain over the float literals `0.25`, `0.83`, `0.4`, `0.65`. -/
def lineForPosition (bollard_number : ℤ) (total : ℕ) : String :=
  let bollard_position : ℚ := (bollard_number : ℚ) / (total : ℚ)
  if bollard_position < 25/100 then "HEAD"
  else if 83/100 < bollard_position then "STERN"
  else if 40/100 < bollard_position ∧ bollard_position < 65/100 then "BREAST"
  else "SPRING"

/-- `builder.line_name_generator`: maps each bollard number in the list to
its line name, dividing by the length of the whole list. -/
def line_name_generator (bollard_list : List ℤ) : List String :=
  bollard_list.map (fun n => lineForPosition n bollard_list.length)

/-- The spec's wording of the line-assignment rule, as a function of the
ratio `r = p / N`: `r < 0.25` → HEAD, else `r > 0.83` → STERN, else
`0.4 < r < 0.65` → BREAST, else SPRING (first matching clause wins). -/
def specLineRule (r : ℚ) : String :=
  if r < 25/100 then "HEAD"
  else if r > 83/100 then "STERN"
  else if 40/100 < r ∧ r < 65/100 then "BREAST"
  else "SPRING"

/-! ## Hook simulator (`builder.HookWorker`)

The Gaussian parameters of `builder.py` (`MEAN_CHANGES`, `STDEV_CHANGES`,
etc.) are only ever passed to `random.gauss`; in the embedding the oracle
directly supplies each sample, so the parameters do not reappear. -/

/-- Mutable state of `builder.HookWorker`. -/
structure HookWorker where
  name : String
  active : Bool
  fault : Bool
  attached_line : Option String
  tension : Option ℤ
  deriving Repr, DecidableEq

/-- `HookWorker.update` with the Gaussian sample `g` supplied explicitly:
`if self.active and not self.fault: self.tension = abs(ceil(g))`. -/
def HookWorker.update (h : HookWorker) (g : ℚ) : HookWorker :=
  if h.active && !h.fault then { h with tension := some |⌈g⌉| } else h

/-- Pop the next Gaussian sample from an oracle stream (`random.gauss`). -/
def popQ : List ℚ → ℚ × List ℚ
  | [] => (0, [])
  | g :: gs => (g, gs)

/-- `HookWorker.update` threading the sample stream: the Python code only
draws from `random.gauss` when the hook is active and not faulted. -/
def HookWorker.updateS (h : HookWorker) (gs : List ℚ) : HookWorker × List ℚ :=
  if h.active && !h.fault then
    let p := popQ gs
    (h.update p.1, p.2)
  else (h, gs)

/-- `HookWorker.__init__`: `active = (hook_status is True)`,
`fault = (hook_status is None)`, `attached_line = None`, `tension = None`;
when active, set `attached_line` and call `update()` once. -/
def mkHookWorker (hook_number : ℤ) (hook_status : Option Bool)
    (attached_line : String) (gs : List ℚ) : HookWorker × List ℚ :=
  let active : Bool := match hook_status with | some true => true | _ => false
  let fault : Bool := match hook_status with | none => true | _ => false
  let base : HookWorker :=
    ⟨"Hook " ++ toString hook_number, active, fault, none, none⟩
  if active then
    ({ base with attached_line := some attached_line }).updateS gs
  else (base, gs)

/-- Repeated `update()` calls, each drawing from its own oracle stream. -/
def HookWorker.iterUpdates (h : HookWorker) : List (List ℚ) → HookWorker
  | [] => h
  | gs :: rest => ((h.updateS gs).1).iterUpdates rest


/-! ## Selection pools (`builder.random_single_use_choice`) -/

/-- Failure modes of the generation engine: an exhausted selection pool
(Python `IndexError` out of `random.choice` on an empty sequence — the
spec's ExhaustionError), a strict-`zip` length mismatch (`ValueError`),
and a pydantic `ValidationError` (the spec's SchemaViolation), which
carries the title of the model being constructed and the `loc` of the
failing field — pydantic reports the field name within that model only,
because each nested model validates at its own construction site. -/
inductive GenError where
  | exhausted
  | zipMismatch
  | validation (model : String) (field : String)
  deriving Repr, DecidableEq

/-- `builder.random_single_use_choice`: `random.choice` picks the element
at oracle index `i % len` (the real index is always `< len`), removes the
first occurrence of that element from the list (`list.remove`), and
returns it; on an empty pool `random.choice` raises. -/
def random_single_use_choice (pool : List String) (i : ℕ) :
    Except GenError (String × List String) :=
  match pool with
  | [] => Except.error GenError.exhausted
  | x :: xs =>
    let chosen := (x :: xs).getD (i % (x :: xs).length) x
    Except.ok (chosen, (x :: xs).erase chosen)



/-! ## Data schema (`mooring_data_generator/models.py`)

The pydantic models with their field constraints.  A `mkXData` function
models constructing the pydantic model: pydantic validates the fields of
the model being constructed (already-validated nested model instances are
not re-validated), raising `ValidationError` on the first offending field
(when several fields fail, pydantic aggregates them into one error; the
embedding reports the first, which coincides whenever exactly one field
is out of range). -/

/-- `ShipData`: `name: str`, `vessel_id: str` with pattern `^[0-9]{4}$`. -/
structure ShipData where
  name : String
  vessel_id : String
  deriving Repr, DecidableEq

/-- `RadarData`: constrained name/distance/change/status fields. -/
structure RadarData where
  name : String
  ship_distance : Option ℚ
  distance_change : Option ℚ
  distance_status : String
  deriving Repr, DecidableEq

/-- `HookData`: constrained name/tension/faulted/attached_line fields. -/
structure HookData where
  name : String
  tension : Option ℤ
  faulted : Bool
  attached_line : Option String
  deriving Repr, DecidableEq

/-- `BollardData`: constrained name and the list of hook records. -/
structure BollardData where
  name : String
  hooks : List HookData
  deriving Repr, DecidableEq

/-- `BerthData`: name, counts, ship, radars, bollards. -/
structure BerthData where
  name : String
  bollard_count : ℤ
  hook_count : ℤ
  ship : ShipData
  radars : List RadarData
  bollards : List BollardData
  deriving Repr, DecidableEq

/-- `PortData`: unconstrained name plus the berth records. -/
structure PortData where
  name : String
  berths : List BerthData
  deriving Repr, DecidableEq

/-- `[A-Z]` character class. -/
def isUpperAZ (c : Char) : Bool := 'A' ≤ c && c ≤ 'Z'

/-- Pattern `^Hook [1-9][0-9]?$` (from `HookData.name`). -/
def hookNameOk (s : String) : Bool :=
  match s.toList with
  | 'H' :: 'o' :: 'o' :: 'k' :: ' ' :: c :: rest =>
    ('1' ≤ c && c ≤ '9') &&
      (match rest with
       | [] => true
       | [d] => d.isDigit
       | _ => false)
  | _ => false

/-- Pattern `^BOL[0-9]{3}$` (from `BollardData.name`). -/
def bollardNameOk (s : String) : Bool :=
  match s.toList with
  | 'B' :: 'O' :: 'L' :: [a, b, c] => a.isDigit && b.isDigit && c.isDigit
  | _ => false

/-- Pattern `^B[A-Z]RD[0-9]$` (from `RadarData.name`). -/
def radarNameOk (s : String) : Bool :=
  match s.toList with
  | 'B' :: x :: 'R' :: 'D' :: [d] => isUpperAZ x && d.isDigit
  | _ => false

/-- Pattern `^Berth [A-Z]$` (from `BerthData.name`). -/
def berthNameOk (s : String) : Bool :=
  match s.toList with
  | 'B' :: 'e' :: 'r' :: 't' :: 'h' :: ' ' :: [c] => isUpperAZ c
  | _ => false

/-- Pattern `^[0-9]{4}$` (from `ShipData.vessel_id`). -/
def vesselIdOk (s : String) : Bool :=
  match s.toList with
  | [a, b, c, d] => a.isDigit && b.isDigit && c.isDigit && d.isDigit
  | _ => false

/-- `Literal["BREAST", "HEAD", "SPRING", "STERN"] | None`. -/
def lineLiteralOk : Option String → Bool
  | none => true
  | some l => l == "BREAST" || l == "HEAD" || l == "SPRING" || l == "STERN"

/-- `Literal["INACTIVE", "ACTIVE"]`. -/
def statusLiteralOk (s : String) : Bool := s == "INACTIVE" || s == "ACTIVE"

/-- Validated construction of `ShipData`. -/
def mkShipData (name vessel_id : String) : Except GenError ShipData :=
  if vesselIdOk vessel_id = false then
    Except.error (GenError.validation "ShipData" "vessel_id")
  else Except.ok ⟨name, vessel_id⟩

/-- Validated construction of `RadarData`: `ship_distance ∈ [0,100) | None`,
`distance_change ∈ (-100,100) | None`. -/
def mkRadarData (name : String) (ship_distance distance_change : Option ℚ)
    (distance_status : String) : Except GenError RadarData :=
  if radarNameOk name = false then
    Except.error (GenError.validation "RadarData" "name")
  else if (match ship_distance with
           | some d => decide (d < 0) || decide (100 ≤ d)
           | none => false) then
    Except.error (GenError.validation "RadarData" "ship_distance")
  else if (match distance_change with
           | some c => decide (c ≤ -100) || decide (100 ≤ c)
           | none => false) then
    Except.error (GenError.validation "RadarData" "distance_change")
  else if statusLiteralOk distance_status = false then
    Except.error (GenError.validation "RadarData" "distance_status")
  else Except.ok ⟨name, ship_distance, distance_change, distance_status⟩

/-- Validated construction of `HookData`: `tension ∈ [0,99) | None`. -/
def mkHookData (name : String) (tension : Option ℤ) (faulted : Bool)
    (attached_line : Option String) : Except GenError HookData :=
  if hookNameOk name = false then
    Except.error (GenError.validation "HookData" "name")
  else if (match tension with
           | some t => decide (t < 0) || decide (99 ≤ t)
           | none => false) then
    Except.error (GenError.validation "HookData" "tension")
  else if lineLiteralOk attached_line = false then
    Except.error (GenError.validation "HookData" "attached_line")
  else Except.ok ⟨name, tension, faulted, attached_line⟩

/-- Validated construction of `BollardData`. -/
def mkBollardData (name : String) (hooks : List HookData) :
    Except GenError BollardData :=
  if bollardNameOk name = false then
    Except.error (GenError.validation "BollardData" "name")
  else Except.ok ⟨name, hooks⟩

/-- Validated construction of `BerthData`: `bollard_count ∈ (0,40)`,
`hook_count ∈ (0,60)`. -/
def mkBerthData (name : String) (bollard_count hook_count : ℤ)
    (ship : ShipData) (radars : List RadarData) (bollards : List BollardData) :
    Except GenError BerthData :=
  if berthNameOk name = false then
    Except.error (GenError.validation "BerthData" "name")
  else if decide (bollard_count ≤ 0) || decide (40 ≤ bollard_count) then
    Except.error (GenError.validation "BerthData" "bollard_count")
  else if decide (hook_count ≤ 0) || decide (60 ≤ hook_count) then
    Except.error (GenError.validation "BerthData" "hook_count")
  else Except.ok ⟨name, bollard_count, hook_count, ship, radars, bollards⟩

/-! ## Generation oracle state

All five global name pools of `builder.py`, plus one consumable oracle
stream for each kind of random draw.  When a stream runs short, a fixed
default is used; every theorem quantifies over the streams, so this loses
no generality. -/

/-- `HOOK_COUNT_MULTIPLIER = 3` from `builder.py`. -/
def HOOK_COUNT_MULTIPLIER : ℤ := 3

/-- The pools (`WA_PORT_NAMES`, `NAUTICAL_SUPERLATIVES`,
`NAUTICAL_BASE_NAMES`, `BOLLARD_NAMES`, `SHIP_IDS`) and the oracle
streams: `idxs` for `random.choice`/`random.randint` index draws, `gs`
for `random.gauss` samples, `tris` for the weighted hook-status draws
over `(True, False, None)`, `bins` for the weighted radar-active draws
over `[True, False]`. -/
structure GenState where
  wa : List String
  superlatives : List String
  baseNames : List String
  bollardNames : List String
  shipIds : List String
  idxs : List ℕ
  gs : List ℚ
  tris : List (Option Bool)
  bins : List Bool
  deriving Repr, DecidableEq

/-- Pop one `random.choice`/`randint` oracle index. -/
def popIdx (s : GenState) : ℕ × GenState :=
  match s.idxs with
  | [] => (0, s)
  | i :: rest => (i, { s with idxs := rest })

/-- Pop one `random.gauss` sample. -/
def popGauss (s : GenState) : ℚ × GenState :=
  match s.gs with
  | [] => (0, s)
  | g :: rest => (g, { s with gs := rest })

/-- Take exactly `k` items from a stream, padding with a default. -/
def popList (k : ℕ) (l : List α) (d : α) : List α × List α :=
  ((List.range k).map (fun j => l.getD j d), l.drop k)

/-- `random.choices((True, False, None), weights=(5, 4, 0.5), k=k)`:
the oracle chooses the outcomes. -/
def popTris (k : ℕ) (s : GenState) : List (Option Bool) × GenState :=
  let p := popList k s.tris (some false)
  (p.1, { s with tris := p.2 })

/-- `random.choices([True, False], weights=(2, 1), k=k)`. -/
def popBins (k : ℕ) (s : GenState) : List Bool × GenState :=
  let p := popList k s.bins false
  (p.1, { s with bins := p.2 })

/-- `random_wa_port_name()`: one unique draw from `WA_PORT_NAMES`. -/
def drawPortName (s : GenState) : Except GenError (String × GenState) :=
  let p := popIdx s
  match random_single_use_choice p.2.wa p.1 with
  | Except.error e => Except.error e
  | Except.ok r => Except.ok (r.1, { p.2 with wa := r.2 })

/-- One unique draw from `NAUTICAL_SUPERLATIVES`. -/
def drawSuperlative (s : GenState) : Except GenError (String × GenState) :=
  let p := popIdx s
  match random_single_use_choice p.2.superlatives p.1 with
  | Except.error e => Except.error e
  | Except.ok r => Except.ok (r.1, { p.2 with superlatives := r.2 })

/-- One unique draw from `NAUTICAL_BASE_NAMES`. -/
def drawBaseName (s : GenState) : Except GenError (String × GenState) :=
  let p := popIdx s
  match random_single_use_choice p.2.baseNames p.1 with
  | Except.error e => Except.error e
  | Except.ok r => Except.ok (r.1, { p.2 with baseNames := r.2 })

/-- `random_bollard_name()`: one unique draw from `BOLLARD_NAMES`. -/
def drawBollardNameS (s : GenState) : Except GenError (String × GenState) :=
  let p := popIdx s
  match random_single_use_choice p.2.bollardNames p.1 with
  | Except.error e => Except.error e
  | Except.ok r => Except.ok (r.1, { p.2 with bollardNames := r.2 })

/-- One unique draw from `SHIP_IDS`. -/
def drawShipId (s : GenState) : Except GenError (String × GenState) :=
  let p := popIdx s
  match random_single_use_choice p.2.shipIds p.1 with
  | Except.error e => Except.error e
  | Except.ok r => Except.ok (r.1, { p.2 with shipIds := r.2 })

/-- `generate_ship()`: `random_ship_name()` draws a superlative and a base
name and joins them with a space; then a unique vessel id is drawn and
`ShipData` is constructed (validating the id pattern). -/
def generate_ship (s : GenState) : Except GenError (ShipData × GenState) :=
  match drawSuperlative s with
  | Except.error e => Except.error e
  | Except.ok r1 =>
    match drawBaseName r1.2 with
    | Except.error e => Except.error e
    | Except.ok r2 =>
      match drawShipId r2.2 with
      | Except.error e => Except.error e
      | Except.ok r3 =>
        match mkShipData (r1.1 ++ " " ++ r2.1) r3.1 with
        | Except.error e => Except.error e
        | Except.ok ship => Except.ok (ship, r3.2)

/-- `zip(..., strict=True)`: `ValueError` on a length mismatch. -/
def zipStrict : List α → List β → Except GenError (List (α × β))
  | [], [] => Except.ok []
  | x :: xs, y :: ys =>
    match zipStrict xs ys with
    | Except.error e => Except.error e
    | Except.ok r => Except.ok ((x, y) :: r)
  | _, _ => Except.error GenError.zipMismatch

/-- `batched(..., 3, strict=True)`: groups of exactly three, `ValueError`
on a ragged final group. -/
def batchedStrict3 : List α → Except GenError (List (List α))
  | [] => Except.ok []
  | a :: b :: c :: rest =>
    match batchedStrict3 rest with
    | Except.error e => Except.error e
    | Except.ok r => Except.ok ([a, b, c] :: r)
  | _ => Except.error GenError.zipMismatch

/-- Evaluate a fallible export over a list, stopping at the first error
(the order Python evaluates a list comprehension). -/
def mapE (f : α → Except GenError β) : List α → Except GenError (List β)
  | [] => Except.ok []
  | x :: xs =>
    match f x with
    | Except.error e => Except.error e
    | Except.ok y =>
      match mapE f xs with
      | Except.error e => Except.error e
      | Except.ok ys => Except.ok (y :: ys)

/-! ## Radar simulator (`builder.RadarWorker`) -/

/-- Mutable state of `builder.RadarWorker`. -/
structure RadarWorker where
  name : String
  active : Bool
  distance : Option ℚ
  change : Option ℚ
  deriving Repr, DecidableEq

/-- `RadarWorker.__init__`: when active, `distance = abs(gauss(9.38, 6.73))`
and `change = abs(gauss(0.68, 2.6))`; otherwise both stay `None`. -/
def mkRadarWorker (name : String) (active : Bool) (gs : List ℚ) :
    RadarWorker × List ℚ :=
  if active then
    let p1 := popQ gs
    let p2 := popQ p1.2
    (⟨name, active, some |p1.1|, some |p2.1|⟩, p2.2)
  else (⟨name, active, none, none⟩, gs)

/-- `RadarWorker.update`: when active, `new_distance = abs(gauss(6, 5))`,
`new_change = abs(self.distance - new_distance)`.  `self.distance` is
non-`None` for every active radar reachable from the constructor, so the
`getD 0` default is never consulted on reachable states. -/
def RadarWorker.updateS (r : RadarWorker) (gs : List ℚ) :
    RadarWorker × List ℚ :=
  if r.active then
    let p := popQ gs
    let new_distance : ℚ := |p.1|
    let new_change : ℚ := |r.distance.getD 0 - new_distance|
    ({ r with distance := some new_distance, change := some new_change }, p.2)
  else (r, gs)

/-- `RadarWorker.data` without validation (the record's field values). -/
def RadarWorker.data (r : RadarWorker) : RadarData :=
  ⟨r.name, r.distance, r.change, if r.active then "ACTIVE" else "INACTIVE"⟩

/-- `RadarWorker.data`: constructs the validated `RadarData`. -/
def RadarWorker.dataE (r : RadarWorker) : Except GenError RadarData :=
  mkRadarData r.name r.distance r.change
    (if r.active then "ACTIVE" else "INACTIVE")

/-- `HookWorker.data` without validation (the record's field values). -/
def HookWorker.data (h : HookWorker) : HookData :=
  ⟨h.name, h.tension, h.fault, h.attached_line⟩

/-- `HookWorker.data`: constructs the validated `HookData`. -/
def HookWorker.dataE (h : HookWorker) : Except GenError HookData :=
  mkHookData h.name h.tension h.fault h.attached_line

/-! ## Bollard simulator (`builder.BollardWorker`) -/

/-- Mutable state of `builder.BollardWorker`. -/
structure BollardWorker where
  bollard_number : ℤ
  name : String
  hooks : List HookWorker
  deriving Repr, DecidableEq

/-- Build the hook workers of a bollard in order, threading the Gaussian
sample stream (each active hook consumes one sample on construction). -/
def buildHooks (line : String) :
    List (ℤ × Option Bool) → GenState → List HookWorker × GenState
  | [], s => ([], s)
  | p :: rest, s =>
    let r := mkHookWorker p.1 p.2 line s.gs
    let rr := buildHooks line rest { s with gs := r.2 }
    (r.1 :: rr.1, rr.2)

/-- `BollardWorker.__init__`: draws a unique bollard name, computes
`hook_count_start = bollard_number * 3 - 3 + 1`, numbers the hooks
`range(hook_count_start, hook_count_start + 3)`, and zips them strictly
with the supplied hook statuses. -/
def mkBollardWorker (bollard_number : ℤ) (attached_line : String)
    (hook_statuses : List (Option Bool)) (s : GenState) :
    Except GenError (BollardWorker × GenState) :=
  match drawBollardNameS s with
  | Except.error e => Except.error e
  | Except.ok r1 =>
    let hook_count_start : ℤ :=
      bollard_number * HOOK_COUNT_MULTIPLIER - HOOK_COUNT_MULTIPLIER + 1
    let hook_numbers : List ℤ :=
      (List.range HOOK_COUNT_MULTIPLIER.toNat).map
        (fun (j : ℕ) => hook_count_start + (j : ℤ))
    match zipStrict hook_numbers hook_statuses with
    | Except.error e => Except.error e
    | Except.ok pairs =>
      let hb := buildHooks attached_line pairs r1.2
      Except.ok (⟨bollard_number, r1.1, hb.1⟩, hb.2)

/-- Cascade `update()` over a bollard's hooks, threading the stream. -/
def updateHooks : List HookWorker → List ℚ → List HookWorker × List ℚ
  | [], gs => ([], gs)
  | h :: t, gs =>
    let r := h.updateS gs
    let rr := updateHooks t r.2
    (r.1 :: rr.1, rr.2)

/-- `BollardWorker.update`: update every hook in order. -/
def BollardWorker.updateS (b : BollardWorker) (gs : List ℚ) :
    BollardWorker × List ℚ :=
  let r := updateHooks b.hooks gs
  ({ b with hooks := r.1 }, r.2)

/-- `BollardWorker.data` without validation. -/
def BollardWorker.data (b : BollardWorker) : BollardData :=
  ⟨b.name, b.hooks.map HookWorker.data⟩

/-- `BollardWorker.data`: exports each hook (validating it), then
constructs the validated `BollardData`. -/
def BollardWorker.dataE (b : BollardWorker) : Except GenError BollardData :=
  match mapE HookWorker.dataE b.hooks with
  | Except.error e => Except.error e
  | Except.ok hooks => mkBollardData b.name hooks

/-- `random_bollard_structure(bollard_count)`: numbers `1..count`, their
line names, and `3 * count` weighted hook statuses batched in threes,
zipped strictly. -/
def random_bollard_structure (bollard_count : ℤ) (s : GenState) :
    Except GenError (List (ℤ × String × List (Option Bool)) × GenState) :=
  let bollard_number_list : List ℤ :=
    (List.range bollard_count.toNat).map (fun j => (j : ℤ) + 1)
  let bollard_line_name_list := line_name_generator bollard_number_list
  let p := popTris (bollard_number_list.length * HOOK_COUNT_MULTIPLIER.toNat) s
  match batchedStrict3 p.1 with
  | Except.error e => Except.error e
  | Except.ok hooks_active_list =>
    match zipStrict bollard_line_name_list hooks_active_list with
    | Except.error e => Except.error e
    | Except.ok z2 =>
      match zipStrict bollard_number_list z2 with
      | Except.error e => Except.error e
      | Except.ok z1 => Except.ok (z1, p.2)

/-! ## Berth simulator (`builder.BerthWorker`) -/

/-- Mutable state of `builder.BerthWorker`. -/
structure BerthWorker where
  berth_code : String
  bollard_count : ℤ
  hook_count : ℤ
  ship : ShipData
  radars : List RadarWorker
  bollards : List BollardWorker
  deriving Repr, DecidableEq

/-- Build radar workers `B<code>RD<n>` in order, threading the stream. -/
def buildRadars (berth_code : String) :
    List (ℕ × Bool) → GenState → List RadarWorker × GenState
  | [], s => ([], s)
  | p :: rest, s =>
    let r := mkRadarWorker ("B" ++ berth_code ++ "RD" ++ toString p.1) p.2 s.gs
    let rr := buildRadars berth_code rest { s with gs := r.2 }
    (r.1 :: rr.1, rr.2)

/-- Build bollard workers from the bollard structure, in order. -/
def buildBollards :
    List (ℤ × String × List (Option Bool)) → GenState →
    Except GenError (List BollardWorker × GenState)
  | [], s => Except.ok ([], s)
  | p :: rest, s =>
    match mkBollardWorker p.1 p.2.1 p.2.2 s with
    | Except.error e => Except.error e
    | Except.ok r =>
      match buildBollards rest r.2 with
      | Except.error e => Except.error e
      | Except.ok rr => Except.ok (r.1 :: rr.1, rr.2)

/-- `BerthWorker.__init__`: `bollard_count = ceil(gauss(12, 2.2))`,
`hook_count = bollard_count * 3`, one generated ship, radar count chosen
from `[5, 6, 6, 6]`, each radar's active flag drawn with weights `(2, 1)`,
then the bollard structure is computed and mapped into bollard workers. -/
def mkBerthWorker (berth_code : String) (s : GenState) :
    Except GenError (BerthWorker × GenState) :=
  let pg := popGauss s
  let bollard_count : ℤ := ⌈pg.1⌉
  let hook_count : ℤ := bollard_count * HOOK_COUNT_MULTIPLIER
  match generate_ship pg.2 with
  | Except.error e => Except.error e
  | Except.ok rs =>
    let pi := popIdx rs.2
    let radar_total : ℕ := [5, 6, 6, 6].getD (pi.1 % 4) 5
    let radar_number_list : List ℕ :=
      (List.range radar_total).map (fun j => j + 1)
    let pb := popBins radar_number_list.length pi.2
    match zipStrict radar_number_list pb.1 with
    | Except.error e => Except.error e
    | Except.ok radars =>
      let rr := buildRadars berth_code radars pb.2
      match random_bollard_structure bollard_count rr.2 with
      | Except.error e => Except.error e
      | Except.ok rbs =>
        match buildBollards rbs.1 rbs.2 with
        | Except.error e => Except.error e
        | Except.ok rb =>
          Except.ok (⟨berth_code, bollard_count, hook_count,
                      rs.1, rr.1, rb.1⟩, rb.2)

/-- Cascade `update()` over the radars, threading the stream. -/
def updateRadars : List RadarWorker → List ℚ → List RadarWorker × List ℚ
  | [], gs => ([], gs)
  | r :: t, gs =>
    let u := r.updateS gs
    let rr := updateRadars t u.2
    (u.1 :: rr.1, rr.2)

/-- Cascade `update()` over the bollards, threading the stream. -/
def updateBollards : List BollardWorker → List ℚ → List BollardWorker × List ℚ
  | [], gs => ([], gs)
  | b :: t, gs =>
    let u := b.updateS gs
    let rr := updateBollards t u.2
    (u.1 :: rr.1, rr.2)

/-- `BerthWorker.update`: radars first, then bollards. -/
def BerthWorker.updateS (b : BerthWorker) (gs : List ℚ) :
    BerthWorker × List ℚ :=
  let r1 := updateRadars b.radars gs
  let r2 := updateBollards b.bollards r1.2
  ({ b with radars := r1.1, bollards := r2.1 }, r2.2)

/-- `BerthWorker.data` without validation (`name` is the property
`"Berth " + berth_code`). -/
def BerthWorker.data (b : BerthWorker) : BerthData :=
  ⟨"Berth " ++ b.berth_code, b.bollard_count, b.hook_count, b.ship,
   b.radars.map RadarWorker.data, b.bollards.map BollardWorker.data⟩

/-- `BerthWorker.data`: exports radars, then bollards (Python evaluates
the keyword arguments in this order), then the validated `BerthData`.
The stored ship was validated at construction and is not re-validated. -/
def BerthWorker.dataE (b : BerthWorker) : Except GenError BerthData :=
  match mapE RadarWorker.dataE b.radars with
  | Except.error e => Except.error e
  | Except.ok radars =>
    match mapE BollardWorker.dataE b.bollards with
    | Except.error e => Except.error e
    | Except.ok bollards =>
      mkBerthData ("Berth " ++ b.berth_code) b.bollard_count b.hook_count
        b.ship radars bollards

/-! ## Port simulator (`builder.PortWorker`) -/

/-- The literal `"ABCDEFGHIJKLMNOPQRSTUVWXYZ"` indexed by `berth_num`. -/
def ALPHABET : List String :=
  ["A", "B", "C", "D", "E", "F", "G", "H", "I", "J", "K", "L", "M",
   "N", "O", "P", "Q", "R", "S", "T", "U", "V", "W", "X", "Y", "Z"]

/-- Mutable state of `builder.PortWorker`. -/
structure PortWorker where
  name : String
  berth_count : ℤ
  berths : List BerthWorker
  deriving Repr, DecidableEq

/-- Build the berth workers for `berth_num in range(1, berth_count + 1)`,
each with `berth_code = "ABCDEFGHIJKLMNOPQRSTUVWXYZ"[berth_num]`. -/
def buildBerths : List ℕ → GenState → Except GenError (List BerthWorker × GenState)
  | [], s => Except.ok ([], s)
  | n :: rest, s =>
    match mkBerthWorker (ALPHABET.getD n "") s with
    | Except.error e => Except.error e
    | Except.ok r =>
      match buildBerths rest r.2 with
      | Except.error e => Except.error e
      | Except.ok rr => Except.ok (r.1 :: rr.1, rr.2)

/-- `PortWorker.__init__`: one unique WA port name, `berth_count =
random.randint(1, 8)` (the oracle index is reduced `mod 8` and offset by
one, giving exactly the inclusive range `[1, 8]`), then the berths. -/
def mkPortWorker (s : GenState) : Except GenError (PortWorker × GenState) :=
  match drawPortName s with
  | Except.error e => Except.error e
  | Except.ok r1 =>
    let pi := popIdx r1.2
    let berth_count : ℤ := 1 + ((pi.1 % 8 : ℕ) : ℤ)
    match buildBerths
        ((List.range berth_count.toNat).map (fun j => j + 1)) pi.2 with
    | Except.error e => Except.error e
    | Except.ok rb => Except.ok (⟨r1.1, berth_count, rb.1⟩, rb.2)

/-- Cascade `update()` over the berths, threading the stream. -/
def updateBerths : List BerthWorker → List ℚ → List BerthWorker × List ℚ
  | [], gs => ([], gs)
  | b :: t, gs =>
    let u := b.updateS gs
    let rr := updateBerths t u.2
    (u.1 :: rr.1, rr.2)

/-- `PortWorker.update`: update every berth in order. -/
def PortWorker.updateS (p : PortWorker) (gs : List ℚ) :
    PortWorker × List ℚ :=
  let r := updateBerths p.berths gs
  ({ p with berths := r.1 }, r.2)

/-- `PortWorker.data` without validation. -/
def PortWorker.data (p : PortWorker) : PortData :=
  ⟨p.name, p.berths.map BerthWorker.data⟩

/-- `PortWorker.data`: exports every berth; `PortData` itself has no
constrained fields. -/
def PortWorker.dataE (p : PortWorker) : Except GenError PortData :=
  match mapE BerthWorker.dataE p.berths with
  | Except.error e => Except.error e
  | Except.ok berths => Except.ok ⟨p.name, berths⟩

/-! ## Volatile-field erasure

Blanks exactly the fields `update()` may touch (hook tension, radar
distance/change), for stating the frame property of C5. -/

/-- Blank a hook record's tension. -/
def eraseHook (d : HookData) : HookData := { d with tension := none }

/-- Blank a radar record's distance and change. -/
def eraseRadar (d : RadarData) : RadarData :=
  { d with ship_distance := none, distance_change := none }

/-- Blank the volatile fields of every hook of a bollard record. -/
def eraseBollard (d : BollardData) : BollardData :=
  { d with hooks := d.hooks.map eraseHook }

/-- Blank the volatile fields throughout a berth record. -/
def eraseBerth (d : BerthData) : BerthData :=
  { d with radars := d.radars.map eraseRadar,
           bollards := d.bollards.map eraseBollard }

/-- Blank the volatile fields throughout a port record. -/
def erasePort (d : PortData) : PortData :=
  { d with berths := d.berths.map eraseBerth }

/-- A port state forced (test injection) to hold an out-of-bounds hook
tension `t` at `berths[0].bollards[2].hooks[1]`; every entity validated
before that hook is valid. -/
def injectedPort (t : ℤ) : PortWorker :=
  ⟨"Fremantle", 1,
   [⟨"B", 3, 9, ⟨"Majestic Amelia", "0001"⟩, [],
     [⟨1, "BOL001", []⟩, ⟨2, "BOL002", []⟩,
      ⟨3, "BOL003",
       [⟨"Hook 7", true, false, some "HEAD", some 5⟩,
        ⟨"Hook 8", true, false, some "HEAD", some t⟩,
        ⟨"Hook 9", true, false, some "HEAD", some 5⟩]⟩]⟩]⟩

/-! ## Receiver-side flattening (`parsejson.parse_mooring_payload`) -/

/-- Untyped JSON values, the argument shape of `parse_mooring_payload`. -/
inductive Json where
  | null
  | jb (v : Bool)
  | ji (v : ℤ)
  | js (v : String)
  | arr (xs : List Json)
  | obj (kvs : List (String × Json))

/-- `dict.get(key)`: the first value stored under `key` (Python dict keys
are unique; `find?` takes the first binding), `None` when absent or when
the receiver is not an object. -/
def Json.get? : Json → String → Option Json
  | Json.obj kvs, k => (kvs.find? (fun p => p.1 == k)).map Prod.snd
  | _, _ => none

/-- `dict.get(key, default)`. -/
def Json.getD (j : Json) (k : String) (d : Json) : Json := (j.get? k).getD d

/-- Iterate a JSON array (the payloads the code consumes hold arrays at
`berths` / `bollards` / `hooks`). -/
def Json.asArr : Json → List Json
  | Json.arr xs => xs
  | _ => []

/-- One flat output record of `parse_mooring_payload`.  The `timestamp`
(`datetime.now().isoformat()`) is supplied as an input.  Name fields hold
whatever JSON value `get` returned (with the UNKNOWN defaults); hook
fields hold `None` exactly when the key is absent. -/
structure FlatRecord where
  timestamp : String
  port_name : Json
  berth_name : Json
  bollard_name : Json
  hook_name : Option Json
  tension : Option Json
  faulted : Option Json
  attached_line : Option Json

/-- `parsejson.parse_mooring_payload`: one record per hook, iterating
berths, bollards and hooks in order, with `UNKNOWN_PORT` /
`UNKNOWN_BERTH` / `UNKNOWN_BOLLARD` defaults for missing name keys and
`[]` defaults for missing collection keys. -/
def parse_mooring_payload (now : String) (payload : Json) : List FlatRecord :=
  let port_name := payload.getD "name" (Json.js "UNKNOWN_PORT")
  ((payload.getD "berths" (Json.arr [])).asArr).flatMap (fun berth =>
    let berth_name := berth.getD "name" (Json.js "UNKNOWN_BERTH")
    ((berth.getD "bollards" (Json.arr [])).asArr).flatMap (fun bollard =>
      let bollard_name := bollard.getD "name" (Json.js "UNKNOWN_BOLLARD")
      ((bollard.getD "hooks" (Json.arr [])).asArr).map (fun hook =>
        ⟨now, port_name, berth_name, bollard_name,
         hook.get? "name", hook.get? "tension",
         hook.get? "faulted", hook.get? "attachedLine"⟩)))

/-- A well-shaped payload assembled from optional names and nested lists:
an encoder used to state what `parse_mooring_payload` recovers. -/
def mkPayload (pn : Option String)
    (berths : List (Option String × List (Option String × List Json))) : Json :=
  Json.obj
    ((match pn with | some v => [("name", Json.js v)] | none => []) ++
     [("berths", Json.arr (berths.map (fun b =>
        Json.obj
          ((match b.1 with | some v => [("name", Json.js v)] | none => []) ++
           [("bollards", Json.arr (b.2.map (fun bol =>
              Json.obj
                ((match bol.1 with
                  | some v => [("name", Json.js v)]
                  | none => []) ++
                 [("hooks", Json.arr bol.2)]))))]))))])


/-! ### C1 -/

/-- C1: the line-assignment function is deterministic and agrees with the
spec's ordered rule on `r = p / N` for every position and total, and the
four quoted examples (positions 1, 3, 5, 9 of 10) give HEAD, SPRING,
BREAST, STERN respectively. -/
theorem line_assignment_matches_spec_rule :
    (∀ (p : ℤ) (N : ℕ), lineForPosition p N = specLineRule ((p : ℚ) / (N : ℚ)))
    ∧ line_name_generator [1, 2, 3, 4, 5, 6, 7, 8, 9, 10] =
      ["HEAD", "HEAD", "SPRING", "SPRING", "BREAST",
       "BREAST", "SPRING", "SPRING", "STERN", "STERN"] := by
  constructor
  · intro p N
    simp [lineForPosition, specLineRule]
  · norm_num [line_name_generator, lineForPosition]

/-! ### C2 -/

/-- C2: a hook constructed with `hook_status=false` has null tension and
null attached line, and they stay null after every later `update()`; an
active, non-faulted hook's tension after `update()` with sample `g` is
`abs(ceil(g))`, a non-negative integer; inactive or faulted hooks keep
their tension unchanged across updates. -/
theorem hook_update_tension_rule :
    (∀ (n : ℤ) (l : String) (gs : List ℚ) (gss : List (List ℚ)),
      ((mkHookWorker n (some false) l gs).1.tension = none
        ∧ (mkHookWorker n (some false) l gs).1.attached_line = none)
      ∧ (((mkHookWorker n (some false) l gs).1.iterUpdates gss).tension = none
        ∧ ((mkHookWorker n (some false) l gs).1.iterUpdates gss).attached_line = none))
    ∧ (∀ (h : HookWorker) (g : ℚ), h.active = true → h.fault = false →
      (h.update g).tension = some |⌈g⌉| ∧ (0 : ℤ) ≤ |⌈g⌉|)
    ∧ (∀ (h : HookWorker) (g : ℚ), h.active = false ∨ h.fault = true →
      (h.update g).tension = h.tension) := by
  refine ⟨?_, ?_, ?_⟩
  · intro n l gs gss
    have hmk : (mkHookWorker n (some false) l gs).1 =
        ⟨"Hook " ++ toString n, false, false, none, none⟩ := by
      simp [mkHookWorker]
    have hiter : ∀ gss₂ : List (List ℚ),
        ((⟨"Hook " ++ toString n, false, false, none, none⟩ : HookWorker).iterUpdates gss₂) =
        ⟨"Hook " ++ toString n, false, false, none, none⟩ := by
      intro gss₂
      induction gss₂ with
      | nil => rfl
      | cons g t ih =>
        rw [HookWorker.iterUpdates]
        simpa [HookWorker.updateS] using ih
    refine ⟨⟨?_, ?_⟩, ?_, ?_⟩
    · rw [hmk]
    · rw [hmk]
    · rw [hmk, hiter]
    · rw [hmk, hiter]
  · intro h g ha hf
    refine ⟨?_, abs_nonneg _⟩
    simp [HookWorker.update, ha, hf]
  · intro h g hcase
    rcases hcase with ha | hf
    · simp [HookWorker.update, ha]
    · simp [HookWorker.update, hf]

/-- Witness for C2 at concrete inputs: hook constructed inactive has null
tension; an active hook updated with sample 4 gets tension 4. -/
theorem hook_update_tension_rule_witness :
    ((mkHookWorker 1 (some false) "HEAD" []).1.tension = none)
    ∧ ((⟨"Hook 7", true, false, some "HEAD", none⟩ : HookWorker).update
        (4 : ℚ)).tension = some 4 := by
  constructor
  · exact (hook_update_tension_rule.1 1 "HEAD" [] []).1.1
  · have := (hook_update_tension_rule.2.1
      (⟨"Hook 7", true, false, some "HEAD", none⟩ : HookWorker) (4 : ℚ) rfl rfl).1
    rw [this]
    norm_num

/-! ### C8 -/

/-- C8 counterexample: a hook constructed with `hook_status=null`
(`mkHookWorker 1 none "HEAD"`) does **not** retain active status nor the
attached line it was given: its `active` flag is `false` and its
`attached_line` is `none`, contrary to the claim. -/
theorem faulted_hook_counterexample :
    ¬(((mkHookWorker 1 none "HEAD" []).1.active = true)
      ∧ ((mkHookWorker 1 none "HEAD" []).1.attached_line = some "HEAD")) := by
  intro hc
  have h1 := hc.1
  simp [mkHookWorker] at h1

/-- C8 amended: a hook constructed as faulted (`hook_status=null`) has
`active=false`, `faulted=true`, `attached_line=null` and `tension=null`,
and its tension stays null (frozen) across every subsequent `update()`. -/
theorem faulted_hook_state (n : ℤ) (line : String) (gs : List ℚ)
    (gss : List (List ℚ)) :
    (mkHookWorker n none line gs).1.active = false
    ∧ (mkHookWorker n none line gs).1.fault = true
    ∧ (mkHookWorker n none line gs).1.attached_line = none
    ∧ (mkHookWorker n none line gs).1.tension = none
    ∧ ((mkHookWorker n none line gs).1.iterUpdates gss).tension = none := by
  have hmk : (mkHookWorker n none line gs).1 =
      ⟨"Hook " ++ toString n, false, true, none, none⟩ := by
    simp [mkHookWorker]
  have hiter : ∀ gss₂ : List (List ℚ),
      ((⟨"Hook " ++ toString n, false, true, none, none⟩ : HookWorker).iterUpdates gss₂) =
      ⟨"Hook " ++ toString n, false, true, none, none⟩ := by
    intro gss₂
    induction gss₂ with
    | nil => rfl
    | cons g t ih =>
      rw [HookWorker.iterUpdates]
      simpa [HookWorker.updateS] using ih
  refine ⟨?_, ?_, ?_, ?_, ?_⟩ <;> rw [hmk]
  rw [hiter]

/-! ### C7 -/

/-- C7: drawing from a nonempty pool returns one element of the pool and
removes it (so, for a duplicate-free pool, the drawn element is no longer
in the remaining pool and cannot be drawn again while the pool lasts, and
the pool shrinks by one); drawing from an empty pool fails with the
exhaustion error, which the caller receives. -/
theorem draw_unique_spec :
    (∀ i : ℕ, random_single_use_choice [] i = Except.error GenError.exhausted)
    ∧ (∀ (pool : List String) (i : ℕ), pool ≠ [] →
        ∃ el, random_single_use_choice pool i = Except.ok (el, pool.erase el)
          ∧ el ∈ pool
          ∧ (pool.erase el).length = pool.length - 1
          ∧ (pool.Nodup → el ∉ pool.erase el)) := by
  constructor
  · intro i
    rfl
  · intro pool i hne
    match pool with
    | [] => exact absurd rfl hne
    | x :: xs =>
      refine ⟨(x :: xs).getD (i % (x :: xs).length) x, rfl, ?_, ?_, ?_⟩
      · have hlt : i % (x :: xs).length < (x :: xs).length :=
          Nat.mod_lt _ (by simp)
        rw [List.getD_eq_getElem?_getD, List.getElem?_eq_getElem hlt]
        exact List.getElem_mem hlt
      · apply List.length_erase_of_mem
        have hlt : i % (x :: xs).length < (x :: xs).length :=
          Nat.mod_lt _ (by simp)
        rw [List.getD_eq_getElem?_getD, List.getElem?_eq_getElem hlt]
        exact List.getElem_mem hlt
      · intro hnd
        exact hnd.not_mem_erase

/-- Witness for C7: drawing from the empty pool errors; drawing from
`["a", "b"]` at oracle index 0 removes and returns an element. -/
theorem draw_unique_spec_witness :
    (random_single_use_choice [] 0 = Except.error GenError.exhausted)
    ∧ ∃ el, random_single_use_choice ["a", "b"] 0 =
          Except.ok (el, (["a", "b"] : List String).erase el)
        ∧ el ∈ (["a", "b"] : List String)
        ∧ ((["a", "b"] : List String).erase el).length = 1
        ∧ ((["a", "b"] : List String).Nodup → el ∉ (["a", "b"] : List String).erase el) :=
  ⟨draw_unique_spec.1 0, draw_unique_spec.2 ["a", "b"] 0 (by simp)⟩

/-! ## Helper lemmas -/

/-- A hook worker's name is `"Hook " ++ hook_number`, whatever its status. -/
lemma mkHookWorker_name (n : ℤ) (st : Option Bool) (line : String)
    (gs : List ℚ) :
    (mkHookWorker n st line gs).1.name = "Hook " ++ toString n := by
  cases st with
  | none => simp [mkHookWorker]
  | some b =>
    cases b
    · simp [mkHookWorker]
    · simp [mkHookWorker, HookWorker.updateS, HookWorker.update]

/-- `buildHooks` produces one hook per input pair, named by its number. -/
lemma buildHooks_map_name (line : String) :
    ∀ (ps : List (ℤ × Option Bool)) (s : GenState),
      ((buildHooks line ps s).1).map HookWorker.name =
        ps.map (fun p => "Hook " ++ toString p.1) := by
  intro ps
  induction ps with
  | nil => intro s; rfl
  | cons p rest ih => intro s; simp [buildHooks, mkHookWorker_name, ih]

/-- When `mapE` succeeds and each element export equals a pure function,
the result is the pure map. -/
lemma mapE_ok {α β : Type} {f : α → Except GenError β} {g : α → β}
    (hfg : ∀ x y, f x = Except.ok y → y = g x) :
    ∀ {xs : List α} {ys : List β}, mapE f xs = Except.ok ys → ys = xs.map g := by
  intro xs
  induction xs with
  | nil =>
    intro ys h
    simp only [mapE] at h
    exact (Except.ok.inj h).symm.trans rfl
  | cons x rest ih =>
    intro ys h
    simp only [mapE] at h
    split at h
    · exact Except.noConfusion h
    · rename_i y hfx
      split at h
      · exact Except.noConfusion h
      · rename_i ys2 hrest
        have hinj := Except.ok.inj h
        subst hinj
        simp [hfg x y hfx, ih hrest]

/-- A successful hook export is the raw record of the hook state. -/
lemma hookDataE_ok {h : HookWorker} {d : HookData}
    (hd : h.dataE = Except.ok d) : d = h.data := by
  unfold HookWorker.dataE mkHookData at hd
  split at hd
  · exact Except.noConfusion hd
  · split at hd
    · exact Except.noConfusion hd
    · split at hd
      · exact Except.noConfusion hd
      · exact (Except.ok.inj hd).symm

/-- A successful `mkRadarData` returns exactly its arguments. -/
lemma mkRadarData_ok {nm : String} {sd dc : Option ℚ} {st : String}
    {d : RadarData} (h : mkRadarData nm sd dc st = Except.ok d) :
    d = ⟨nm, sd, dc, st⟩ := by
  unfold mkRadarData at h
  split at h
  · exact Except.noConfusion h
  · split at h
    · exact Except.noConfusion h
    · split at h
      · exact Except.noConfusion h
      · split at h
        · exact Except.noConfusion h
        · exact (Except.ok.inj h).symm

/-- A successful radar export is the raw record of the radar state. -/
lemma radarDataE_ok {r : RadarWorker} {d : RadarData}
    (hd : r.dataE = Except.ok d) : d = r.data :=
  mkRadarData_ok hd

/-- A successful bollard export is the raw record of the bollard state. -/
lemma bollardDataE_ok {b : BollardWorker} {d : BollardData}
    (hd : b.dataE = Except.ok d) : d = b.data := by
  unfold BollardWorker.dataE at hd
  split at hd
  · exact Except.noConfusion hd
  · rename_i hooks hmap
    unfold mkBollardData at hd
    split at hd
    · exact Except.noConfusion hd
    · have h2 := mapE_ok (fun x y hxy => hookDataE_ok hxy) hmap
      subst h2
      exact (Except.ok.inj hd).symm

/-- A successful berth export is the raw record of the berth state. -/
lemma berthDataE_ok {b : BerthWorker} {d : BerthData}
    (hd : b.dataE = Except.ok d) : d = b.data := by
  unfold BerthWorker.dataE at hd
  split at hd
  · exact Except.noConfusion hd
  · rename_i radars hradars
    split at hd
    · exact Except.noConfusion hd
    · rename_i bollards hbollards
      unfold mkBerthData at hd
      split at hd
      · exact Except.noConfusion hd
      · split at hd
        · exact Except.noConfusion hd
        · split at hd
          · exact Except.noConfusion hd
          · have h2 := mapE_ok (fun x y hxy => radarDataE_ok hxy) hradars
            have h3 := mapE_ok (fun x y hxy => bollardDataE_ok hxy) hbollards
            subst h2
            subst h3
            exact (Except.ok.inj hd).symm

/-- A successful port export is the raw record of the port state. -/
lemma portDataE_ok {p : PortWorker} {d : PortData}
    (hd : p.dataE = Except.ok d) : d = p.data := by
  unfold PortWorker.dataE at hd
  split at hd
  · exact Except.noConfusion hd
  · rename_i berths hberths
    have h2 := mapE_ok (fun x y hxy => berthDataE_ok hxy) hberths
    subst h2
    exact (Except.ok.inj hd).symm

/-- `update()` touches at most a hook's tension. -/
lemma hook_updateS_erase (h : HookWorker) (gs : List ℚ) :
    eraseHook ((h.updateS gs).1).data = eraseHook h.data := by
  by_cases hc : (h.active && !h.fault) = true
  · simp [HookWorker.updateS, HookWorker.update, hc, HookWorker.data, eraseHook]
  · simp [HookWorker.updateS, hc]

/-- `update()` touches at most a radar's distance and change. -/
lemma radar_updateS_erase (r : RadarWorker) (gs : List ℚ) :
    eraseRadar ((r.updateS gs).1).data = eraseRadar r.data := by
  by_cases hc : r.active = true
  · simp [RadarWorker.updateS, hc, RadarWorker.data, eraseRadar]
  · simp [RadarWorker.updateS, hc]

/-- Erased hook records are unchanged by the hook update cascade. -/
lemma updateHooks_erase :
    ∀ (hs : List HookWorker) (gs : List ℚ),
      ((updateHooks hs gs).1).map (fun h => eraseHook h.data) =
        hs.map (fun h => eraseHook h.data) := by
  intro hs
  induction hs with
  | nil => intro gs; rfl
  | cons h t ih => intro gs; simp [updateHooks, hook_updateS_erase, ih]

/-- `update()` preserves a bollard's erased record. -/
lemma bollard_updateS_erase (b : BollardWorker) (gs : List ℚ) :
    eraseBollard ((b.updateS gs).1).data = eraseBollard b.data := by
  simpa [BollardWorker.updateS, BollardWorker.data, eraseBollard,
    List.map_map, Function.comp] using updateHooks_erase b.hooks gs

/-- Erased radar records are unchanged by the radar update cascade. -/
lemma updateRadars_erase :
    ∀ (rs : List RadarWorker) (gs : List ℚ),
      ((updateRadars rs gs).1).map (fun r => eraseRadar r.data) =
        rs.map (fun r => eraseRadar r.data) := by
  intro rs
  induction rs with
  | nil => intro gs; rfl
  | cons r t ih => intro gs; simp [updateRadars, radar_updateS_erase, ih]

/-- Erased bollard records are unchanged by the bollard update cascade. -/
lemma updateBollards_erase :
    ∀ (bs : List BollardWorker) (gs : List ℚ),
      ((updateBollards bs gs).1).map (fun b => eraseBollard b.data) =
        bs.map (fun b => eraseBollard b.data) := by
  intro bs
  induction bs with
  | nil => intro gs; rfl
  | cons b t ih => intro gs; simp [updateBollards, bollard_updateS_erase, ih]

/-- `update()` preserves a berth's erased record (and its counts, name,
ship field verbatim). -/
lemma berth_updateS_erase (b : BerthWorker) (gs : List ℚ) :
    eraseBerth ((b.updateS gs).1).data = eraseBerth b.data := by
  have h1 := updateRadars_erase b.radars gs
  have h2 := updateBollards_erase b.bollards (updateRadars b.radars gs).2
  simp only [BerthWorker.updateS, BerthWorker.data, eraseBerth,
    List.map_map, Function.comp_def, BerthData.mk.injEq]
  exact ⟨trivial, trivial, trivial, trivial, h1, h2⟩

/-- Erased berth records are unchanged by the berth update cascade. -/
lemma updateBerths_erase :
    ∀ (bs : List BerthWorker) (gs : List ℚ),
      ((updateBerths bs gs).1).map (fun b => eraseBerth b.data) =
        bs.map (fun b => eraseBerth b.data) := by
  intro bs
  induction bs with
  | nil => intro gs; rfl
  | cons b t ih => intro gs; simp [updateBerths, berth_updateS_erase, ih]

/-- `update()` preserves a port's erased record. -/
lemma port_updateS_erase (p : PortWorker) (gs : List ℚ) :
    erasePort ((p.updateS gs).1).data = erasePort p.data := by
  have h1 := updateBerths_erase p.berths gs
  simp only [PortWorker.updateS, PortWorker.data, erasePort,
    List.map_map, Function.comp_def, PortData.mk.injEq]
  exact ⟨trivial, h1⟩

/-! ### C4 -/

/-- C4: a bollard constructed at 1-based position `k` (with the
three-element status tuple the berth supplies) contains exactly 3 hook
simulators, numbered `3k-2`, `3k-1`, `3k`, in that order. -/
theorem bollard_hook_numbering (k : ℤ) (line : String)
    (sts : List (Option Bool)) (s s2 : GenState) (b : BollardWorker)
    (hlen : sts.length = 3)
    (hmk : mkBollardWorker k line sts s = Except.ok (b, s2)) :
    b.hooks.length = 3
    ∧ b.hooks.map HookWorker.name =
      ["Hook " ++ toString (3 * k - 2), "Hook " ++ toString (3 * k - 1),
       "Hook " ++ toString (3 * k)] := by
  match sts, hlen with
  | [a0, a1, a2], _ =>
    simp only [mkBollardWorker] at hmk
    split at hmk
    · exact Except.noConfusion hmk
    · rename_i r1 hdraw
      have hnums : (List.range HOOK_COUNT_MULTIPLIER.toNat).map
          (fun (j : ℕ) => (k * HOOK_COUNT_MULTIPLIER - HOOK_COUNT_MULTIPLIER + 1) + (j : ℤ))
          = [3 * k - 2, 3 * k - 1, 3 * k] := by
        have hr : List.range HOOK_COUNT_MULTIPLIER.toNat = [0, 1, 2] := rfl
        rw [hr]
        simp [HOOK_COUNT_MULTIPLIER]
        refine ⟨by ring, by ring, by ring⟩
      rw [hnums] at hmk
      split at hmk
      · exact Except.noConfusion hmk
      · rename_i pairs hzip
        have hpairs : pairs =
            [(3 * k - 2, a0), (3 * k - 1, a1), (3 * k, a2)] := by
          simp [zipStrict] at hzip
          exact hzip.symm
        subst hpairs
        have hinj := Except.ok.inj hmk
        have hb : b = ⟨k, r1.1,
            (buildHooks line
              [(3 * k - 2, a0), (3 * k - 1, a1), (3 * k, a2)] r1.2).1⟩ := by
          have := congrArg Prod.fst hinj
          exact this.symm
        subst hb
        constructor
        · have := buildHooks_map_name line
            [(3 * k - 2, a0), (3 * k - 1, a1), (3 * k, a2)] r1.2
          have hlen2 := congrArg List.length this
          simpa using hlen2
        · simpa using buildHooks_map_name line
            [(3 * k - 2, a0), (3 * k - 1, a1), (3 * k, a2)] r1.2

/-- Witness for C4: constructing a bollard at position 2 with a pool
holding one bollard name yields hooks named `Hook 4`, `Hook 5`, `Hook 6`. -/
theorem bollard_hook_numbering_witness :
    ∃ b s2, mkBollardWorker 2 "HEAD" [some false, some false, some false]
        ⟨[], [], [], ["BOL001"], [], [], [], [], []⟩ = Except.ok (b, s2)
      ∧ b.hooks.length = 3
      ∧ b.hooks.map HookWorker.name =
        ["Hook " ++ toString (3 * (2 : ℤ) - 2),
         "Hook " ++ toString (3 * (2 : ℤ) - 1),
         "Hook " ++ toString (3 * (2 : ℤ))] := by
  obtain ⟨b, s2, hmk⟩ :
      ∃ b s2, mkBollardWorker 2 "HEAD" [some false, some false, some false]
        ⟨[], [], [], ["BOL001"], [], [], [], [], []⟩ = Except.ok (b, s2) :=
    ⟨_, _, rfl⟩
  obtain ⟨h1, h2⟩ := bollard_hook_numbering 2 "HEAD"
    [some false, some false, some false] _ _ b rfl hmk
  exact ⟨b, s2, hmk, h1, h2⟩

/-! ### C3 -/

/-- C3: every generated berth satisfies `hook_count = bollard_count * 3`
at construction; `update()` changes neither count; and the exported
record carries both counts verbatim (never re-sampled). -/
theorem berth_hook_count_invariant :
    (∀ (code : String) (s s2 : GenState) (b : BerthWorker),
      mkBerthWorker code s = Except.ok (b, s2) →
      b.hook_count = b.bollard_count * 3)
    ∧ (∀ (b : BerthWorker) (gs : List ℚ),
      ((b.updateS gs).1).hook_count = b.hook_count
      ∧ ((b.updateS gs).1).bollard_count = b.bollard_count)
    ∧ (∀ (b : BerthWorker) (t : BerthData), b.dataE = Except.ok t →
      t.hook_count = b.hook_count ∧ t.bollard_count = b.bollard_count) := by
  refine ⟨?_, ?_, ?_⟩
  · intro code s s2 b hmk
    simp only [mkBerthWorker] at hmk
    split at hmk
    · exact Except.noConfusion hmk
    · split at hmk
      · exact Except.noConfusion hmk
      · split at hmk
        · exact Except.noConfusion hmk
        · split at hmk
          · exact Except.noConfusion hmk
          · have hinj := Except.ok.inj hmk
            injection hinj with hb hs
            subst hb
            rfl
  · intro b gs
    exact ⟨rfl, rfl⟩
  · intro b t hd
    rw [berthDataE_ok hd]
    exact ⟨rfl, rfl⟩

/-- Witness for C3: a concrete berth construction (pools holding one ship
name pair and one vessel id) satisfies the invariant; a concrete berth
state keeps `hook_count` across `update()` and export. -/
theorem berth_hook_count_invariant_witness :
    (∃ b s2, mkBerthWorker "B"
        ⟨[], ["Majestic"], ["Amelia"], [], ["0001"], [], [], [], []⟩ =
        Except.ok (b, s2) ∧ b.hook_count = b.bollard_count * 3)
    ∧ (((⟨"B", 1, 3, ⟨"SS Test", "0001"⟩, [],
          [⟨1, "BOL001", []⟩]⟩ : BerthWorker).updateS []).1.hook_count = 3)
    ∧ ∃ t, (⟨"B", 1, 3, ⟨"SS Test", "0001"⟩, [],
          [⟨1, "BOL001", []⟩]⟩ : BerthWorker).dataE = Except.ok t
        ∧ t.hook_count = 3 := by
  refine ⟨?_, ?_, ?_⟩
  · obtain ⟨b, s2, hmk⟩ :
        ∃ b s2, mkBerthWorker "B"
          ⟨[], ["Majestic"], ["Amelia"], [], ["0001"], [], [], [], []⟩ =
          Except.ok (b, s2) := ⟨_, _, rfl⟩
    exact ⟨b, s2, hmk, berth_hook_count_invariant.1 "B" _ _ b hmk⟩
  · exact (berth_hook_count_invariant.2.1
      (⟨"B", 1, 3, ⟨"SS Test", "0001"⟩, [], [⟨1, "BOL001", []⟩]⟩ : BerthWorker)
      []).1
  · obtain ⟨t, ht⟩ :
        ∃ t, (⟨"B", 1, 3, ⟨"SS Test", "0001"⟩, [],
          [⟨1, "BOL001", []⟩]⟩ : BerthWorker).dataE = Except.ok t :=
      ⟨_, rfl⟩
    exact ⟨t, ht,
      (berth_hook_count_invariant.2.2
        (⟨"B", 1, 3, ⟨"SS Test", "0001"⟩, [],
          [⟨1, "BOL001", []⟩]⟩ : BerthWorker) t ht).1⟩

/-- A constructed berth stores the berth code it was given. -/
lemma mkBerthWorker_code {code : String} {s s2 : GenState} {b : BerthWorker}
    (hmk : mkBerthWorker code s = Except.ok (b, s2)) : b.berth_code = code := by
  simp only [mkBerthWorker] at hmk
  split at hmk
  · exact Except.noConfusion hmk
  · split at hmk
    · exact Except.noConfusion hmk
    · split at hmk
      · exact Except.noConfusion hmk
      · split at hmk
        · exact Except.noConfusion hmk
        · have hinj := Except.ok.inj hmk
          injection hinj with hb hs
          subst hb
          rfl

/-- `buildBerths` gives each berth the alphabet letter at its number. -/
lemma buildBerths_ok {nums : List ℕ} :
    ∀ {s s2 : GenState} {bs : List BerthWorker},
      buildBerths nums s = Except.ok (bs, s2) →
      bs.map BerthWorker.berth_code = nums.map (fun n => ALPHABET.getD n "") := by
  induction nums with
  | nil =>
    intro s s2 bs h
    simp only [buildBerths] at h
    have hinj := Except.ok.inj h
    injection hinj with h1 h2
    subst h1
    rfl
  | cons n rest ih =>
    intro s s2 bs h
    simp only [buildBerths] at h
    split at h
    · exact Except.noConfusion h
    · rename_i r hr
      split at h
      · exact Except.noConfusion h
      · rename_i rr hrr
        have hinj := Except.ok.inj h
        injection hinj with h1 h2
        subst h1
        simp [mkBerthWorker_code hr, ih hrr]

/-! ### C9 -/

/-- C9: port construction draws `berth_count` in the inclusive range
`[1, 8]`, builds exactly that many berths, and assigns their codes by
indexing the 26-letter alphabet at offset `i + 1` for the i-th berth
created (0-based `i`); in particular the first berth's code is `B`. -/
theorem port_berth_codes (s s2 : GenState) (p : PortWorker)
    (hmk : mkPortWorker s = Except.ok (p, s2)) :
    (1 ≤ p.berth_count ∧ p.berth_count ≤ 8)
    ∧ p.berths.length = p.berth_count.toNat
    ∧ p.berths.map BerthWorker.berth_code =
        (List.range p.berth_count.toNat).map (fun i => ALPHABET.getD (i + 1) "")
    ∧ p.berths.head?.map BerthWorker.berth_code = some "B" := by
  simp only [mkPortWorker] at hmk
  split at hmk
  · exact Except.noConfusion hmk
  · rename_i r1 hdraw
    split at hmk
    · exact Except.noConfusion hmk
    · rename_i rb hbuild
      have hinj := Except.ok.inj hmk
      injection hinj with hp hs
      subst hp
      have hcodes := buildBerths_ok hbuild
      have hmod : (popIdx r1.2).1 % 8 < 8 := Nat.mod_lt _ (by norm_num)
      refine ⟨⟨?_, ?_⟩, ?_, ?_, ?_⟩
      · show (1 : ℤ) ≤ 1 + (((popIdx r1.2).1 % 8 : ℕ) : ℤ)
        omega
      · show (1 + (((popIdx r1.2).1 % 8 : ℕ) : ℤ)) ≤ 8
        omega
      · have hlen := congrArg List.length hcodes
        simpa using hlen
      · rw [hcodes]
        simp [List.map_map, Function.comp_def]
      · have hn : ∃ m, (1 + ((popIdx r1.2).1 % 8 : ℕ) : ℤ).toNat = m + 1 :=
          ⟨((popIdx r1.2).1 % 8 : ℕ), by omega⟩
        obtain ⟨m, hm⟩ := hn
        rw [← List.head?_map, hcodes]
        show (((List.range (1 + ((popIdx r1.2).1 % 8 : ℕ) : ℤ).toNat).map
          (fun j => j + 1)).map (fun n => ALPHABET.getD n "")).head? = some "B"
        rw [hm, List.range_succ_eq_map]
        rfl

/-- Witness for C9: a concrete port construction (one pool entry each,
empty oracle streams) produces one berth with code `B`. -/
theorem port_berth_codes_witness :
    ∃ p s2, mkPortWorker
        ⟨["Fremantle"], ["Majestic"], ["Amelia"], [], ["0001"], [], [], [], []⟩ =
        Except.ok (p, s2)
      ∧ (1 ≤ p.berth_count ∧ p.berth_count ≤ 8)
      ∧ p.berths.length = p.berth_count.toNat
      ∧ p.berths.head?.map BerthWorker.berth_code = some "B" := by
  obtain ⟨p, s2, hmk⟩ :
      ∃ p s2, mkPortWorker
        ⟨["Fremantle"], ["Majestic"], ["Amelia"], [], ["0001"], [], [], [], []⟩ =
        Except.ok (p, s2) := ⟨_, _, rfl⟩
  obtain ⟨h1, h2, h3, h4⟩ := port_berth_codes _ _ p hmk
  exact ⟨p, s2, hmk, h1, h2, h4⟩

/-! ### C5 -/

/-- C5: export is deterministic (two exports of the same unmutated port
state agree), and an `update()` between exports changes only hook
tension and radar distance/change — the exported trees agree after
blanking exactly those fields, so names, counts, ship, attached_line and
faulted flags are untouched. -/
theorem export_frame :
    (∀ (p : PortWorker) (t t2 : PortData),
      p.dataE = Except.ok t → p.dataE = Except.ok t2 → t = t2)
    ∧ (∀ (p : PortWorker) (gs : List ℚ) (t t2 : PortData),
      p.dataE = Except.ok t → ((p.updateS gs).1).dataE = Except.ok t2 →
      erasePort t2 = erasePort t) := by
  constructor
  · intro p t t2 h1 h2
    rw [h1] at h2
    exact Except.ok.inj h2
  · intro p gs t t2 h1 h2
    rw [portDataE_ok h1, portDataE_ok h2]
    exact port_updateS_erase p gs

/-- Witness for C5 at a concrete one-hook port whose exports succeed. -/
theorem export_frame_witness :
    ∃ t t2,
      (⟨"Fremantle", 1,
        [⟨"B", 1, 3, ⟨"SS Test", "0001"⟩, [],
          [⟨1, "BOL001", [⟨"Hook 1", false, false, none, none⟩]⟩]⟩]⟩ :
        PortWorker).dataE = Except.ok t
      ∧ (((⟨"Fremantle", 1,
        [⟨"B", 1, 3, ⟨"SS Test", "0001"⟩, [],
          [⟨1, "BOL001", [⟨"Hook 1", false, false, none, none⟩]⟩]⟩]⟩ :
        PortWorker).updateS []).1).dataE = Except.ok t2
      ∧ erasePort t2 = erasePort t := by
  obtain ⟨t, h1⟩ :
      ∃ t, (⟨"Fremantle", 1,
        [⟨"B", 1, 3, ⟨"SS Test", "0001"⟩, [],
          [⟨1, "BOL001", [⟨"Hook 1", false, false, none, none⟩]⟩]⟩]⟩ :
        PortWorker).dataE = Except.ok t := ⟨_, rfl⟩
  obtain ⟨t2, h2⟩ :
      ∃ t2, (((⟨"Fremantle", 1,
        [⟨"B", 1, 3, ⟨"SS Test", "0001"⟩, [],
          [⟨1, "BOL001", [⟨"Hook 1", false, false, none, none⟩]⟩]⟩]⟩ :
        PortWorker).updateS []).1).dataE = Except.ok t2 := ⟨_, rfl⟩
  exact ⟨t, t2, h1, h2, export_frame.2 _ [] t t2 h1 h2⟩

/-! ### C6 -/

/-- C6 (amended): exporting a port whose in-memory state violates a
declared bound (hook tension outside `[0, 99)`) fails fast with a
validation error naming the offending field (`tension`) of the model
being constructed (`HookData`) — no clamping or coercion occurs.  The
error does not carry the entity path `berths[0].bollards[2].hooks[1]`,
because the hook model validates at its own construction site, before
the enclosing bollard/berth/port records exist. -/
theorem export_invalid_tension_errors (t : ℤ) (hout : t < 0 ∨ 99 ≤ t) :
    (injectedPort t).dataE =
      Except.error (GenError.validation "HookData" "tension") := by
  have hn7 : hookNameOk "Hook 7" = true := by decide
  have hn8 : hookNameOk "Hook 8" = true := by decide
  have hb1 : bollardNameOk "BOL001" = true := by decide
  have hb2 : bollardNameOk "BOL002" = true := by decide
  have hb3 : bollardNameOk "BOL003" = true := by decide
  have hl : lineLiteralOk (some "HEAD") = true := by decide
  have hbad : (decide (t < 0) || decide (99 ≤ t)) = true := by
    rcases hout with h | h <;> simp [h]
  simp [injectedPort, PortWorker.dataE, BerthWorker.dataE, BollardWorker.dataE,
    HookWorker.dataE, mapE, mkHookData, mkBollardData, hn7, hn8, hb1, hb2,
    hb3, hl, hbad]

/-- Witness for C6's amended statement at tension 150. -/
theorem export_invalid_tension_errors_witness :
    ((150 : ℤ) < 0 ∨ (99 : ℤ) ≤ 150)
    ∧ (injectedPort 150).dataE =
      Except.error (GenError.validation "HookData" "tension") :=
  ⟨Or.inr (by norm_num),
   export_invalid_tension_errors 150 (Or.inr (by norm_num))⟩

/-- C6 counterexample: at the forced state with tension 150, the export
error is exactly `validation "HookData" "tension"` — it identifies the
offending field, but its location is not the claimed entity path
`berths[0].bollards[2].hooks[1].tension` (pydantic's `ValidationError`
carries only the model title and the field `loc` within that model). -/
theorem export_path_counterexample :
    (injectedPort 150).dataE =
      Except.error (GenError.validation "HookData" "tension")
    ∧ GenError.validation "HookData" "tension"
      ≠ GenError.validation "HookData"
          "berths[0].bollards[2].hooks[1].tension" := by
  constructor
  · rfl
  · decide

/-- Looking up `"name"` in an object holding an optional name entry and
one other key returns the stored name or the default. -/
lemma objOptName_getD_name (opt : Option String) (k : String) (v : Json)
    (dStr : String) (hk : (k == "name") = false) :
    (Json.obj ((match opt with
      | some s => [("name", Json.js s)]
      | none => []) ++ [(k, v)])).getD "name" (Json.js dStr) =
    Json.js (opt.getD dStr) := by
  cases opt <;> simp [Json.getD, Json.get?, List.find?, hk]

/-- Looking up the other key in such an object returns its value. -/
lemma objOptName_getD_key (opt : Option String) (k : String) (v d : Json)
    (hk : ("name" == k) = false) :
    (Json.obj ((match opt with
      | some s => [("name", Json.js s)]
      | none => []) ++ [(k, v)])).getD k d = v := by
  cases opt <;> simp [Json.getD, Json.get?, List.find?, hk]

/-! ### C10 -/

/-- C10: a payload without a `berths` key parses to the empty list, and a
well-shaped payload parses to exactly one flat record per hook, in
berth → bollard → hook traversal order, copying each hook's `name`,
`tension`, `faulted` and `attachedLine` lookups and substituting
`UNKNOWN_PORT` / `UNKNOWN_BERTH` / `UNKNOWN_BOLLARD` for missing name
keys; the parse function is total, so no payload makes it raise. -/
theorem parse_payload_flattens :
    (∀ (now : String) (kvs : List (String × Json)),
      kvs.find? (fun p => p.1 == "berths") = none →
      parse_mooring_payload now (Json.obj kvs) = [])
    ∧ (∀ (now : String) (pn : Option String)
        (berths : List (Option String × List (Option String × List Json))),
        parse_mooring_payload now (mkPayload pn berths) =
          berths.flatMap (fun b => b.2.flatMap (fun bol => bol.2.map (fun hook =>
            ⟨now, Json.js (pn.getD "UNKNOWN_PORT"),
             Json.js (b.1.getD "UNKNOWN_BERTH"),
             Json.js (bol.1.getD "UNKNOWN_BOLLARD"),
             hook.get? "name", hook.get? "tension",
             hook.get? "faulted", hook.get? "attachedLine"⟩)))) := by
  constructor
  · intro now kvs hf
    simp [parse_mooring_payload, Json.getD, Json.get?, hf, Json.asArr]
  · intro now pn berths
    simp only [parse_mooring_payload, mkPayload]
    rw [objOptName_getD_name _ _ _ _ (by decide),
        objOptName_getD_key _ _ _ _ (by decide)]
    simp only [Json.asArr]
    rw [List.flatMap_map]
    refine congrArg berths.flatMap (funext fun b => ?_)
    rw [objOptName_getD_name _ _ _ _ (by decide),
        objOptName_getD_key _ _ _ _ (by decide)]
    simp only [Json.asArr]
    rw [List.flatMap_map]
    refine congrArg _ (funext fun bol => ?_)
    rw [objOptName_getD_name _ _ _ _ (by decide),
        objOptName_getD_key _ _ _ _ (by decide)]

/-- Witness for C10: a payload with a name but no `berths` key parses to
the empty record list. -/
theorem parse_payload_flattens_witness :
    (([("name", Json.js "P")] : List (String × Json)).find?
        (fun p => p.1 == "berths") = none)
    ∧ parse_mooring_payload "t0" (Json.obj [("name", Json.js "P")]) = [] :=
  ⟨rfl, parse_payload_flattens.1 "t0" [("name", Json.js "P")] rfl⟩
